import Mathlib

/-!
Verification development for the xlnt color module
(`include/xlnt/styles/color.hpp`).

The repository provides the class declarations and the
`std::hash<xlnt::color>` body in the header; the remaining member-function
bodies live in a translation unit that is not part of the sources at hand,
so those operations are modelled from the specification (each such
definition carries a doc comment starting `Modelled from the spec:`).

Modelling conventions:
* `std::uint8_t` channels are `Fin 256` (bytes; no arithmetic overflows
  occur in this module, only storage and hex formatting).
* `std::size_t` palette/theme indices are `Nat`.
* `double` tint values are modelled as `ℚ`: the module only stores,
  returns and compares tints (spec §1 non-goals: no tint arithmetic),
  so an exact scalar carrier is faithful.
* Throwing operations return `Except xlnt_error _`.
* The mutable setters (`auto_(bool)`, `tint(double)`, `index(size_t)`)
  become functions returning the updated value.
-/

namespace Xlnt

/-- Decidable equality of `Except` results, so that concrete outcomes of
the fallible operations can be checked by evaluation. -/
instance {ε α : Type} [DecidableEq ε] [DecidableEq α] :
    DecidableEq (Except ε α) := fun x y =>
  match x, y with
  | .ok a, .ok b =>
    if h : a = b then isTrue (h ▸ rfl)
    else isFalse (fun hc => h (Except.ok.inj hc))
  | .error e, .error f =>
    if h : e = f then isTrue (h ▸ rfl)
    else isFalse (fun hc => h (Except.error.inj hc))
  | .ok _, .error _ => isFalse (fun hc => Except.noConfusion hc)
  | .error _, .ok _ => isFalse (fun hc => Except.noConfusion hc)

/-- The typed errors of the module (spec §7).  The header documents that
wrong-variant access throws `invalid_attribute`; malformed hex input is the
malformed-input error. -/
inductive xlnt_error where
  /-- wrong-variant access / reading an absent optional (spec §7) -/
  | invalid_attribute
  /-- malformed textual input (spec §7 malformed-input error) -/
  | invalid_parameter
deriving DecidableEq, Repr

/-- `xlnt::indexed_color`: wraps an index into the stylesheet palette
(`color.hpp` lines 41-65). -/
structure indexed_color where
  index_ : Nat
deriving DecidableEq, Repr

/-- `indexed_color::index() const` — returns the stored index. -/
def indexed_color.index (c : indexed_color) : Nat := c.index_

/-- `xlnt::theme_color`: wraps an index into the theme color scheme
(`color.hpp` lines 70-93).  A distinct type from `indexed_color` even
though the payload is structurally identical (spec §3). -/
structure theme_color where
  index_ : Nat
deriving DecidableEq, Repr

/-- `theme_color::index() const` — returns the stored index. -/
def theme_color.index (c : theme_color) : Nat := c.index_

/-- `xlnt::rgb_color`: four bytes red, green, blue, alpha
(`color.hpp` lines 98-152; the `std::array<std::uint8_t, 4>` storage is
modelled by one named byte per channel, matching the channel accessors). -/
structure rgb_color where
  red_ : Fin 256
  green_ : Fin 256
  blue_ : Fin 256
  alpha_ : Fin 256
deriving DecidableEq, Repr

/-- `rgb_color::red() const`. -/
def rgb_color.red (c : rgb_color) : Fin 256 := c.red_

/-- `rgb_color::green() const`. -/
def rgb_color.green (c : rgb_color) : Fin 256 := c.green_

/-- `rgb_color::blue() const`. -/
def rgb_color.blue (c : rgb_color) : Fin 256 := c.blue_

/-- `rgb_color::alpha() const`. -/
def rgb_color.alpha (c : rgb_color) : Fin 256 := c.alpha_

/-- Modelled from the spec: the byte constructor
`rgb_color(r, g, b, a = 255)` (body not under src/) stores the four
channels verbatim, the alpha argument defaulting to 255 (spec §4.1). -/
def rgb_color.of_bytes (r g b : Fin 256) (a : Fin 256 := 255) : rgb_color :=
  ⟨r, g, b, a⟩

/-- Modelled from the spec: one hexadecimal digit, case-insensitive
(spec §4.1: "hex digits case-insensitive").  Character codes: 48-57 are
codes of the digits, 97-102 lowercase letters, 65-70 uppercase letters. -/
def hex_digit_val (ch : Char) : Option (Fin 16) :=
  let n := ch.toNat
  if h : 48 ≤ n ∧ n ≤ 57 then some ⟨n - 48, by omega⟩
  else if h : 97 ≤ n ∧ n ≤ 102 then some ⟨n - 87, by omega⟩
  else if h : 65 ≤ n ∧ n ≤ 70 then some ⟨n - 55, by omega⟩
  else none

/-- Two hex digits decode to one byte, most significant digit first. -/
def parse_byte (c1 c2 : Char) : Option (Fin 256) := do
  let hi ← hex_digit_val c1
  let lo ← hex_digit_val c2
  pure ⟨16 * hi.val + lo.val, by have h1 := hi.isLt; have h2 := lo.isLt; omega⟩

/-- Strips one optional leading `#` (spec §4.1: "the leading `#`
optional"). -/
def strip_hash : List Char → List Char
  | [] => []
  | c :: rest => if c = '#' then rest else c :: rest

/-- Modelled from the spec: the digit part of the accepted grammar.
Exactly 6 hex digits decode as red, green, blue with alpha defaulting to
255; exactly 8 hex digits decode as alpha, red, green, blue in that order;
anything else is the malformed-input error (spec §4.1, §6). -/
def rgb_from_digits : List Char → Option rgb_color
  | [r1, r2, g1, g2, b1, b2] => do
      let r ← parse_byte r1 r2
      let g ← parse_byte g1 g2
      let b ← parse_byte b1 b2
      pure ⟨r, g, b, 255⟩
  | [a1, a2, r1, r2, g1, g2, b1, b2] => do
      let a ← parse_byte a1 a2
      let r ← parse_byte r1 r2
      let g ← parse_byte g1 g2
      let b ← parse_byte b1 b2
      pure ⟨r, g, b, a⟩
  | _ => none

/-- Modelled from the spec: the string constructor
`rgb_color(const std::string &)` (body not under src/).  Accepts
`#?[0-9a-fA-F]{6}` or `#?[0-9a-fA-F]{8}`; any other input fails with the
typed malformed-input error (spec §4.1, §7). -/
def rgb_color.from_hex_string (s : String) : Except xlnt_error rgb_color :=
  match rgb_from_digits (strip_hash s.data) with
  | some c => .ok c
  | none => .error .invalid_parameter

/-- One lowercase hex digit character for a value below 16. -/
def hex_char (n : Nat) : Char :=
  if n < 10 then Char.ofNat (48 + n) else Char.ofNat (87 + n)

/-- The two hex digit characters of one byte, most significant first. -/
def byte_hex_chars (b : Fin 256) : List Char :=
  [hex_char (b.val / 16), hex_char (b.val % 16)]

/-- Modelled from the spec: `rgb_color::hex_string() const` (body not
under src/) always produces the canonical 8-digit form `#aarrggbb`, two
lowercase hex digits per channel, alpha first (spec §4.1, §6). -/
def rgb_color.hex_string (c : rgb_color) : String :=
  String.mk ('#' :: (byte_hex_chars c.alpha_ ++ byte_hex_chars c.red_
    ++ byte_hex_chars c.green_ ++ byte_hex_chars c.blue_))

/-- A character of the hex-digit character class of the accepted grammar
(spec §6: `[0-9a-fA-F]`).  Written directly from the spec's grammar, to be
compared with the parser's behaviour. -/
def is_hex_digit_char (ch : Char) : Prop :=
  (48 ≤ ch.toNat ∧ ch.toNat ≤ 57) ∨ (97 ≤ ch.toNat ∧ ch.toNat ≤ 102)
    ∨ (65 ≤ ch.toNat ∧ ch.toNat ≤ 70)

instance (ch : Char) : Decidable (is_hex_digit_char ch) := by
  unfold is_hex_digit_char; infer_instance

/-- The accepted grammar of the string constructor, written from the
spec's words (spec §6): after the optional leading `#`, exactly 6 or
exactly 8 characters, all of the hex class. -/
def accepted_hex_grammar (s : String) : Prop :=
  let t := strip_hash s.data
  (t.length = 6 ∨ t.length = 8) ∧ ∀ ch ∈ t, is_hex_digit_char ch

instance (s : String) : Decidable (accepted_hex_grammar s) := by
  unfold accepted_hex_grammar; infer_instance

/-- `xlnt::color_type` (`color.hpp` lines 157-162), in declaration order
`indexed`, `theme`, `rgb`. -/
inductive color_type where
  | indexed
  | theme
  | rgb
deriving DecidableEq, Repr

/-- The `static_cast<int>` of a `color_type`, following the enum's
declaration order (used by the hash in `color.hpp` line 365). -/
def color_type.code : color_type → Nat
  | .indexed => 0
  | .theme => 1
  | .rgb => 2

/-- `xlnt::color` (`color.hpp` lines 167-351): the discriminant `type_`,
the three payload slots `rgb_`, `indexed_`, `theme_` (of which only the
one matching `type_` is semantically valid, spec §3), the optional tint
and the auto flag. -/
structure color where
  type_ : color_type
  rgb_ : rgb_color
  indexed_ : indexed_color
  theme_ : theme_color
  tint_ : Option ℚ
  auto_color : Bool
deriving DecidableEq, Repr

/-- Baseline value stored in an inactive `rgb_` slot; never semantically
read (spec §3: the non-matching payload slots are never valid). -/
def inactive_rgb : rgb_color := ⟨0, 0, 0, 0⟩

/-- Modelled from the spec: the implicit constructor
`color(const rgb_color &)` (body not under src/) sets the discriminant to
`rgb` and stores the payload; tint absent, auto flag false (spec §4.3). -/
def color.of_rgb (r : rgb_color) : color :=
  ⟨.rgb, r, ⟨0⟩, ⟨0⟩, none, false⟩

/-- Modelled from the spec: the implicit constructor
`color(const indexed_color &)` (body not under src/); tint absent, auto
flag false (spec §4.3). -/
def color.of_indexed (i : indexed_color) : color :=
  ⟨.indexed, inactive_rgb, i, ⟨0⟩, none, false⟩

/-- Modelled from the spec: the implicit constructor
`color(const theme_color &)` (body not under src/); tint absent, auto
flag false (spec §4.3). -/
def color.of_theme (t : theme_color) : color :=
  ⟨.theme, inactive_rgb, ⟨0⟩, t, none, false⟩

/-- Modelled from the spec: the default constructor `color()` (body not
under src/).  The baseline variant is an implementation choice the spec
leaves open (spec §9); what the spec does fix is that the tint is absent
and the auto flag false until set (spec §4.3, §8), which is all the
claims use.  Baseline chosen here: indexed 0. -/
def color.default_color : color := color.of_indexed ⟨0⟩

/-- `color::type() const` — returns the discriminant; never throws
(spec §4.3). -/
def color.type (c : color) : color_type := c.type_

/-- `color::auto_() const` — the auto flag. -/
def color.auto_flag (c : color) : Bool := c.auto_color

/-- Modelled from the spec: the setter `color::auto_(bool)` (body not
under src/) sets the auto flag (spec §4.3: plain boolean state,
independent of `kind`). -/
def color.set_auto (c : color) (value : Bool) : color :=
  { c with auto_color := value }

/-- Modelled from the spec: `color::assert_type(color_type) const` (body
not under src/) fails with `invalid_attribute` when the given type
differs from this color's type (`color.hpp` lines 316-320 document
exactly this). -/
def color.assert_type (c : color) (t : color_type) : Except xlnt_error Unit :=
  if c.type_ = t then .ok () else .error .invalid_attribute

/-- Modelled from the spec: `color::rgb()` (body not under src/) checks
the discriminant and returns the stored RGB payload; on mismatch the
`invalid_attribute` error (`color.hpp` lines 255-265, spec §4.3).  The
const and mutable overloads both surface the same stored payload. -/
def color.rgb (c : color) : Except xlnt_error rgb_color :=
  match c.assert_type .rgb with
  | .ok _ => .ok c.rgb_
  | .error e => .error e

/-- Modelled from the spec: `color::indexed()` (body not under src/),
analogous to `color::rgb()` (`color.hpp` lines 267-277, spec §4.3). -/
def color.indexed (c : color) : Except xlnt_error indexed_color :=
  match c.assert_type .indexed with
  | .ok _ => .ok c.indexed_
  | .error e => .error e

/-- Modelled from the spec: `color::theme()` (body not under src/),
analogous to `color::rgb()` (`color.hpp` lines 279-289, spec §4.3). -/
def color.theme (c : color) : Except xlnt_error theme_color :=
  match c.assert_type .theme with
  | .ok _ => .ok c.theme_
  | .error e => .error e

/-- `color::has_tint() const` — whether the optional tint is set. -/
def color.has_tint (c : color) : Bool := c.tint_.isSome

/-- Modelled from the spec: `color::tint() const` (body not under src/;
it reads the `optional<double>` member, whose accessor is also not under
src/): reading an absent tint fails loudly with the typed error rather
than returning an arbitrary number (spec §4.3, §7, §9). -/
def color.tint_value (c : color) : Except xlnt_error ℚ :=
  match c.tint_ with
  | some t => .ok t
  | none => .error .invalid_attribute

/-- Modelled from the spec: the setter `color::tint(double)` (body not
under src/) stores the given tint (spec §4.3, §8). -/
def color.set_tint (c : color) (t : ℚ) : color :=
  { c with tint_ := some t }

/-- The payload comparison of the active variant, as used by equality:
only the slot selected by `a`'s discriminant is compared (spec §3 I2). -/
def color.active_payload_eq (a b : color) : Bool :=
  match a.type_ with
  | .indexed => a.indexed_ == b.indexed_
  | .theme => a.theme_ == b.theme_
  | .rgb => a.rgb_ == b.rgb_

/-- Modelled from the spec: `color::operator==` (body not under src/)
implements invariant I2 exactly: `kind`, `auto_flag`, `tint` (including
both absent) and the matching variant's payload all equal (spec §3 I2,
§4.3). -/
def color.eq (a b : color) : Bool :=
  a.type_ == b.type_ && a.auto_color == b.auto_color
    && a.tint_ == b.tint_ && color.active_payload_eq a b

/-- `color::operator!=` — the logical negation of equality (spec §4.3). -/
def color.ne (a b : color) : Bool := !(color.eq a b)

/-- Modelled from the spec: `xlnt::detail::hash_combine`
(`xlnt/utils/hash_combine.hpp`, not under src/): a deterministic,
order-sensitive combiner of a 64-bit seed with one value
(`seed ^= h + 0x9e3779b9 + (seed << 6) + (seed >> 2)` over
64-bit words, spec §3 I3, §9). -/
def hash_combine (seed v : Nat) : Nat :=
  (seed ^^^ ((v + 0x9e3779b9 + seed * 64 + seed / 4) % 2 ^ 64)) % 2 ^ 64

/-- A deterministic `Nat` code of a tint value, standing in for
`std::hash<double>` (implementation-defined but deterministic; only its
determinism is used).  Pairs the numerator's sign-interleaved code with
the denominator. -/
def tint_code (t : ℚ) : Nat :=
  Nat.pair (if 0 ≤ t.num then 2 * t.num.toNat else 2 * (-t.num).toNat + 1) t.den

/-- `std::hash<xlnt::color>::operator()` (`color.hpp` lines 357-396 — this
body IS in the header): combine the discriminant's int code, then the
auto flag, then the tint when present, then the active variant's fields
(index, or the four channel bytes red, green, blue, alpha in that order),
into a seed starting at 0. -/
def color.hash (c : color) : Nat :=
  let seed := hash_combine 0 c.type.code
  let seed := hash_combine seed (cond c.auto_flag 1 0)
  let seed := match c.tint_ with
    | some t => hash_combine seed (tint_code t)
    | none => seed
  match c.type with
  | .indexed => hash_combine seed c.indexed_.index
  | .theme => hash_combine seed c.theme_.index
  | .rgb =>
    let seed := hash_combine seed c.rgb_.red.val
    let seed := hash_combine seed c.rgb_.green.val
    let seed := hash_combine seed c.rgb_.blue.val
    hash_combine seed c.rgb_.alpha.val

/-- Modelled from the spec: `color::black()` (body not under src/), the
fully-opaque preset at canonical hex `#ff000000` (spec §8 preset table;
header doc `\#000000`). -/
def color.black : color := color.of_rgb ⟨0x00, 0x00, 0x00, 0xff⟩

/-- Modelled from the spec: `color::white()`, canonical `#ffffffff`
(spec §8; header doc `\#ffffff`). -/
def color.white : color := color.of_rgb ⟨0xff, 0xff, 0xff, 0xff⟩

/-- Modelled from the spec: `color::red()`, canonical `#ffff0000`
(spec §8; header doc `\#ff0000`). -/
def color.preset_red : color := color.of_rgb ⟨0xff, 0x00, 0x00, 0xff⟩

/-- Modelled from the spec: `color::darkred()`, canonical `#ff8b0000`
(spec §8; header doc `\#8b0000`). -/
def color.darkred : color := color.of_rgb ⟨0x8b, 0x00, 0x00, 0xff⟩

/-- Modelled from the spec: `color::blue()`, canonical `#ff00ff00`
(spec §8; header doc `\#00ff00`). -/
def color.preset_blue : color := color.of_rgb ⟨0x00, 0xff, 0x00, 0xff⟩

/-- Modelled from the spec: `color::darkblue()`, canonical `#ff008b00`
(spec §8; header doc `\#008b00`). -/
def color.darkblue : color := color.of_rgb ⟨0x00, 0x8b, 0x00, 0xff⟩

/-- Modelled from the spec: `color::green()`, canonical `#ff0000ff`
(spec §8; header doc `\#0000ff`). -/
def color.preset_green : color := color.of_rgb ⟨0x00, 0x00, 0xff, 0xff⟩

/-- Modelled from the spec: `color::darkgreen()`, canonical `#ff00008b`
(spec §8; header doc `\#00008b`). -/
def color.darkgreen : color := color.of_rgb ⟨0x00, 0x00, 0x8b, 0xff⟩

/-- Modelled from the spec: `color::yellow()`, canonical `#ffffff00`
(spec §8; header doc `\#ffff00`). -/
def color.preset_yellow : color := color.of_rgb ⟨0xff, 0xff, 0x00, 0xff⟩

/-- Modelled from the spec: `color::darkyellow()`, canonical `#ffcccc00`
(spec §8; header doc `\#cccc00`). -/
def color.darkyellow : color := color.of_rgb ⟨0xcc, 0xcc, 0x00, 0xff⟩

/-! ## Helper lemmas -/

set_option maxRecDepth 10000 in
/-- Decoding the two hex characters of a byte recovers the byte. -/
lemma byte_round_trip (b : Fin 256) :
    parse_byte (hex_char (b.val / 16)) (hex_char (b.val % 16)) = some b := by
  revert b; decide

/-- `hex_digit_val` succeeds exactly on the hex character class. -/
lemma hex_digit_val_isSome (ch : Char) :
    (hex_digit_val ch).isSome = true ↔ is_hex_digit_char ch := by
  unfold hex_digit_val is_hex_digit_char
  dsimp only
  split_ifs with h1 h2 h3 <;> simp <;> omega

/-- `parse_byte` succeeds exactly when both characters are hex digits. -/
lemma parse_byte_isSome (c1 c2 : Char) :
    (parse_byte c1 c2).isSome = true
      ↔ is_hex_digit_char c1 ∧ is_hex_digit_char c2 := by
  rw [← hex_digit_val_isSome, ← hex_digit_val_isSome]
  unfold parse_byte
  cases hex_digit_val c1 <;> cases hex_digit_val c2 <;> simp

/-- `rgb_from_digits` succeeds exactly on 6 or 8 hex-digit characters. -/
lemma rgb_from_digits_isSome (l : List Char) :
    (rgb_from_digits l).isSome = true
      ↔ ((l.length = 6 ∨ l.length = 8) ∧ ∀ ch ∈ l, is_hex_digit_char ch) := by
  rcases l with _ | ⟨a1, _ | ⟨a2, _ | ⟨a3, _ | ⟨a4, _ | ⟨a5, _ | ⟨a6, l6⟩⟩⟩⟩⟩⟩
  · simp [rgb_from_digits]
  · simp [rgb_from_digits]
  · simp [rgb_from_digits]
  · simp [rgb_from_digits]
  · simp [rgb_from_digits]
  · simp [rgb_from_digits]
  rcases l6 with _ | ⟨a7, _ | ⟨a8, l8⟩⟩
  · -- exactly six characters
    have h12 := parse_byte_isSome a1 a2
    have h34 := parse_byte_isSome a3 a4
    have h56 := parse_byte_isSome a5 a6
    rcases e1 : parse_byte a1 a2 with _ | r <;>
      rcases e2 : parse_byte a3 a4 with _ | g <;>
        rcases e3 : parse_byte a5 a6 with _ | b <;>
          simp_all [rgb_from_digits]
  · simp [rgb_from_digits]
  rcases l8 with _ | ⟨a9, l9⟩
  · -- exactly eight characters
    have h12 := parse_byte_isSome a1 a2
    have h34 := parse_byte_isSome a3 a4
    have h56 := parse_byte_isSome a5 a6
    have h78 := parse_byte_isSome a7 a8
    rcases e1 : parse_byte a1 a2 with _ | va <;>
      rcases e2 : parse_byte a3 a4 with _ | r <;>
        rcases e3 : parse_byte a5 a6 with _ | g <;>
          rcases e4 : parse_byte a7 a8 with _ | b <;>
            simp_all [rgb_from_digits]
  · -- nine or more characters
    simp [rgb_from_digits]

/-- Every character `hex_char` emits for a value below 16 is of the hex
character class. -/
lemma hex_char_is_hex {n : Nat} (h : n < 16) : is_hex_digit_char (hex_char n) := by
  interval_cases n <;> decide

/-- Decoding the canonical encoding recovers the bytes (core of the
round-trip law, at the character-list level). -/
lemma rgb_from_digits_hex_chars (c : rgb_color) :
    rgb_from_digits (byte_hex_chars c.alpha_ ++ byte_hex_chars c.red_
        ++ byte_hex_chars c.green_ ++ byte_hex_chars c.blue_) = some c := by
  obtain ⟨r, g, b, a⟩ := c
  simp [byte_hex_chars, rgb_from_digits, byte_round_trip]

/-- Both characters of a byte's encoding are of the hex class. -/
lemma byte_hex_chars_is_hex (b : Fin 256) :
    ∀ ch ∈ byte_hex_chars b, is_hex_digit_char ch := by
  intro ch hch
  have hb := b.isLt
  simp [byte_hex_chars] at hch
  rcases hch with h | h <;> subst h <;> exact hex_char_is_hex (by omega)

/-- A successful 6-digit decode always carries alpha 255. -/
lemma rgb_from_digits_alpha_of_length6 (l : List Char) (c : rgb_color)
    (hl : l.length = 6) (h : rgb_from_digits l = some c) : c.alpha_ = 255 := by
  rcases l with _ | ⟨a1, _ | ⟨a2, _ | ⟨a3, _ | ⟨a4, _ | ⟨a5, _ | ⟨a6, _ | ⟨a7, l7⟩⟩⟩⟩⟩⟩⟩
  · simp at hl
  · simp at hl
  · simp at hl
  · simp at hl
  · simp at hl
  · simp at hl
  · rcases e1 : parse_byte a1 a2 with _ | r <;>
      rcases e2 : parse_byte a3 a4 with _ | g <;>
        rcases e3 : parse_byte a5 a6 with _ | b <;>
          simp_all [rgb_from_digits]
    exact (congrArg rgb_color.alpha_ h).symm
  · simp at hl

/-- The boolean equality used by `color::operator==`, componentwise. -/
lemma color_eq_iff (a b : color) :
    color.eq a b = true ↔
      (a.type_ = b.type_ ∧ a.auto_color = b.auto_color ∧ a.tint_ = b.tint_ ∧
        color.active_payload_eq a b = true) := by
  unfold color.eq
  simp [Bool.and_eq_true, beq_iff_eq, and_assoc]

/-! ## Claims -/

/-- C1.  Variant-checked accessors: each of `rgb()`, `indexed()`,
`theme()` returns the stored payload of its variant exactly when the
discriminant matches, fails with `invalid_attribute` on any mismatch, and
any payload it does return is the stored one (never a default or stale
payload); in particular `theme()` on an rgb-kind color fails. -/
theorem claim_C1_variant_access :
    ∀ c : color,
      ((c.rgb = .ok c.rgb_ ↔ c.type = .rgb) ∧
       (c.type ≠ .rgb → c.rgb = .error .invalid_attribute) ∧
       ∀ p, c.rgb = .ok p → p = c.rgb_) ∧
      ((c.indexed = .ok c.indexed_ ↔ c.type = .indexed) ∧
       (c.type ≠ .indexed → c.indexed = .error .invalid_attribute) ∧
       ∀ p, c.indexed = .ok p → p = c.indexed_) ∧
      ((c.theme = .ok c.theme_ ↔ c.type = .theme) ∧
       (c.type ≠ .theme → c.theme = .error .invalid_attribute) ∧
       ∀ p, c.theme = .ok p → p = c.theme_) ∧
      (c.type = .rgb → c.theme = .error .invalid_attribute) := by
  intro c
  unfold color.rgb color.indexed color.theme color.assert_type color.type
  rcases c with ⟨t, r, i, th, ti, au⟩
  cases t <;> simp

/-- C1 witness: the strict-accessor scenario at a concrete color —
`theme()` on an rgb-kind color fails with `invalid_attribute`. -/
theorem claim_C1_variant_access_witness :
    (color.of_rgb ⟨0x12, 0x34, 0x56, 0xff⟩).theme
      = .error xlnt_error.invalid_attribute :=
  (claim_C1_variant_access (color.of_rgb ⟨0x12, 0x34, 0x56, 0xff⟩)).2.2.2
    (by decide)

/-- C2.  Equality compares exactly the discriminant, the auto flag, the
optional tint, and the payload of the matching variant; colors of
different kinds are never equal, and in particular the indexed color 1
differs from the theme color 1. -/
theorem claim_C2_equality :
    (∀ a b : color, color.eq a b = true ↔
       (a.type = b.type ∧ a.auto_flag = b.auto_flag ∧ a.tint_ = b.tint_ ∧
         (match a.type with
          | .indexed => a.indexed_ = b.indexed_
          | .theme => a.theme_ = b.theme_
          | .rgb => a.rgb_ = b.rgb_))) ∧
    (∀ a b : color, a.type ≠ b.type → color.eq a b = false) ∧
    color.ne (color.of_indexed ⟨1⟩) (color.of_theme ⟨1⟩) = true := by
  have key : ∀ a b : color, color.eq a b = true ↔
      (a.type = b.type ∧ a.auto_flag = b.auto_flag ∧ a.tint_ = b.tint_ ∧
        (match a.type with
         | .indexed => a.indexed_ = b.indexed_
         | .theme => a.theme_ = b.theme_
         | .rgb => a.rgb_ = b.rgb_)) := by
    intro a b
    rw [color_eq_iff]
    unfold color.active_payload_eq color.type color.auto_flag
    cases a.type_ <;> simp [beq_iff_eq]
  refine ⟨key, ?_, by decide⟩
  intro a b hne
  cases h : color.eq a b
  · rfl
  · exact absurd ((key a b).mp h).1 hne

/-- C2 witness: the cross-kind inequality at the concrete pair of the
claim, `color(indexed_color(1)) != color(theme_color(1))`. -/
theorem claim_C2_equality_witness :
    color.eq (color.of_indexed ⟨1⟩) (color.of_theme ⟨1⟩) = false :=
  claim_C2_equality.2.1 (color.of_indexed ⟨1⟩) (color.of_theme ⟨1⟩) (by decide)

/-- C3.  Hash/equality consistency: equal colors hash equal — the hash is
a function of exactly the fields equality compares. -/
theorem claim_C3_hash_of_eq :
    ∀ a b : color, color.eq a b = true → color.hash a = color.hash b := by
  intro a b h
  rw [color_eq_iff] at h
  obtain ⟨ht, ha, hti, hp⟩ := h
  obtain ⟨ta, ra, ia, tha, tia, aua⟩ := a
  obtain ⟨tb, rb, ib, thb, tib, aub⟩ := b
  simp only at ht ha hti hp
  subst ht; subst ha; subst hti
  cases ta <;>
    simp_all [color.hash, color.type, color.auto_flag, color.active_payload_eq,
      beq_iff_eq, rgb_color.red, rgb_color.green, rgb_color.blue,
      rgb_color.alpha, indexed_color.index, theme_color.index]

/-- C3 witness: the consistency law applied at a concrete equal pair. -/
theorem claim_C3_hash_of_eq_witness :
    color.hash (color.of_theme ⟨2⟩) = color.hash (color.of_theme ⟨2⟩) :=
  claim_C3_hash_of_eq (color.of_theme ⟨2⟩) (color.of_theme ⟨2⟩) (by decide)

/-- C4.  Round trip of the hex encoding: decoding `hex_string c` yields
`c` back for every `rgb_color` `c`; consequently any value decoded from a
valid string re-decodes from its canonical encoding to the same 4 bytes;
and the canonical encoding is always `#` followed by 8 hex digits. -/
theorem claim_C4_round_trip :
    (∀ c : rgb_color,
       rgb_color.from_hex_string c.hex_string = .ok c ∧
       (c.hex_string).data.length = 9 ∧
       (c.hex_string).data.head? = some '#' ∧
       ∀ ch ∈ (c.hex_string).data.tail, is_hex_digit_char ch) ∧
    (∀ (s : String) (c : rgb_color), rgb_color.from_hex_string s = .ok c →
       rgb_color.from_hex_string c.hex_string = .ok c) := by
  have main : ∀ c : rgb_color, rgb_color.from_hex_string c.hex_string = .ok c := by
    intro c
    unfold rgb_color.from_hex_string
    have hd : strip_hash (rgb_color.hex_string c).data
        = byte_hex_chars c.alpha_ ++ byte_hex_chars c.red_
            ++ byte_hex_chars c.green_ ++ byte_hex_chars c.blue_ := by
      show strip_hash ('#' :: _) = _
      simp [strip_hash]
    rw [hd, rgb_from_digits_hex_chars c]
  refine ⟨fun c => ⟨main c, ?_, rfl, ?_⟩, fun s c _ => main c⟩
  · simp [rgb_color.hex_string, byte_hex_chars]
  · intro ch hch
    have hd : (rgb_color.hex_string c).data.tail
        = byte_hex_chars c.alpha_ ++ byte_hex_chars c.red_
            ++ byte_hex_chars c.green_ ++ byte_hex_chars c.blue_ := rfl
    rw [hd] at hch
    simp only [List.mem_append] at hch
    rcases hch with ((h | h) | h) | h <;> exact byte_hex_chars_is_hex _ ch h

/-- C4 witness: the re-decode law at the concrete input `"#112233"`. -/
theorem claim_C4_round_trip_witness :
    rgb_color.from_hex_string
        (rgb_color.hex_string ⟨0x11, 0x22, 0x33, 0xff⟩)
      = .ok ⟨0x11, 0x22, 0x33, 0xff⟩ :=
  claim_C4_round_trip.2 "#112233" ⟨0x11, 0x22, 0x33, 0xff⟩ (by decide)

/-- C5.  The string constructor succeeds exactly on the accepted grammar
(optional `#`, then exactly 6 or 8 hex digits) and fails with the typed
malformed-input error exactly otherwise. -/
theorem claim_C5_grammar_characterization :
    ∀ s : String,
      ((∃ c, rgb_color.from_hex_string s = .ok c) ↔ accepted_hex_grammar s) ∧
      (rgb_color.from_hex_string s = .error .invalid_parameter
        ↔ ¬ accepted_hex_grammar s) := by
  intro s
  have h := rgb_from_digits_isSome (strip_hash s.data)
  unfold rgb_color.from_hex_string accepted_hex_grammar
  rcases e : rgb_from_digits (strip_hash s.data) with _ | c <;>
    rw [e] at h <;> simp_all

/-- C6.  The ten preset factories: each is an rgb-kind, fully-opaque
color whose canonical hex encoding is exactly the literal of the spec's
preset table. -/
theorem claim_C6_preset_table :
    (color.black.type = color_type.rgb
      ∧ (color.black.rgb).map rgb_color.hex_string = .ok "#ff000000"
      ∧ (color.black.rgb).map rgb_color.alpha = .ok 255) ∧
    (color.white.type = color_type.rgb
      ∧ (color.white.rgb).map rgb_color.hex_string = .ok "#ffffffff"
      ∧ (color.white.rgb).map rgb_color.alpha = .ok 255) ∧
    (color.preset_red.type = color_type.rgb
      ∧ (color.preset_red.rgb).map rgb_color.hex_string = .ok "#ffff0000"
      ∧ (color.preset_red.rgb).map rgb_color.alpha = .ok 255) ∧
    (color.darkred.type = color_type.rgb
      ∧ (color.darkred.rgb).map rgb_color.hex_string = .ok "#ff8b0000"
      ∧ (color.darkred.rgb).map rgb_color.alpha = .ok 255) ∧
    (color.preset_blue.type = color_type.rgb
      ∧ (color.preset_blue.rgb).map rgb_color.hex_string = .ok "#ff00ff00"
      ∧ (color.preset_blue.rgb).map rgb_color.alpha = .ok 255) ∧
    (color.darkblue.type = color_type.rgb
      ∧ (color.darkblue.rgb).map rgb_color.hex_string = .ok "#ff008b00"
      ∧ (color.darkblue.rgb).map rgb_color.alpha = .ok 255) ∧
    (color.preset_green.type = color_type.rgb
      ∧ (color.preset_green.rgb).map rgb_color.hex_string = .ok "#ff0000ff"
      ∧ (color.preset_green.rgb).map rgb_color.alpha = .ok 255) ∧
    (color.darkgreen.type = color_type.rgb
      ∧ (color.darkgreen.rgb).map rgb_color.hex_string = .ok "#ff00008b"
      ∧ (color.darkgreen.rgb).map rgb_color.alpha = .ok 255) ∧
    (color.preset_yellow.type = color_type.rgb
      ∧ (color.preset_yellow.rgb).map rgb_color.hex_string = .ok "#ffffff00"
      ∧ (color.preset_yellow.rgb).map rgb_color.alpha = .ok 255) ∧
    (color.darkyellow.type = color_type.rgb
      ∧ (color.darkyellow.rgb).map rgb_color.hex_string = .ok "#ffcccc00"
      ∧ (color.darkyellow.rgb).map rgb_color.alpha = .ok 255) := by
  decide

/-- C7.  Alpha defaults to 255: the byte constructor without an alpha
argument stores 255, every successful 6-digit decode has alpha 255, and
in particular `rgb_color("#112233").alpha() == 255`. -/
theorem claim_C7_alpha_default :
    (∀ r g b : Fin 256, (rgb_color.of_bytes r g b).alpha = 255) ∧
    (∀ (s : String) (c : rgb_color), rgb_color.from_hex_string s = .ok c →
       (strip_hash s.data).length = 6 → c.alpha = 255) ∧
    (rgb_color.from_hex_string "#112233").map rgb_color.alpha = .ok 255 := by
  refine ⟨fun _ _ _ => rfl, ?_, by decide⟩
  intro s c h hlen
  unfold rgb_color.from_hex_string at h
  rcases e : rgb_from_digits (strip_hash s.data) with _ | c' <;> rw [e] at h
  · exact absurd h (by simp)
  · cases h
    exact rgb_from_digits_alpha_of_length6 _ _ hlen e

/-- C7 witness: the 6-digit decode law applied at `"#112233"`. -/
theorem claim_C7_alpha_default_witness :
    (⟨0x11, 0x22, 0x33, 0xff⟩ : rgb_color).alpha = 255 :=
  claim_C7_alpha_default.2.1 "#112233" ⟨0x11, 0x22, 0x33, 0xff⟩
    (by decide) (by decide)

/-- C8.  Reading the tint of a color that has none fails with the typed
error rather than returning an arbitrary number. -/
theorem claim_C8_missing_tint :
    ∀ c : color, c.has_tint = false →
      c.tint_value = .error xlnt_error.invalid_attribute := by
  intro c h
  unfold color.tint_value
  rcases ht : c.tint_ with _ | t
  · rfl
  · rw [color.has_tint, ht] at h
    simp at h

/-- C8 witness: the missing-tint error at the default-constructed
color. -/
theorem claim_C8_missing_tint_witness :
    color.default_color.tint_value = .error xlnt_error.invalid_attribute :=
  claim_C8_missing_tint color.default_color (by decide)

/-- C9.  Tint lifecycle: colors fresh from any leaf constructor (or
default-constructed) have no tint; after `tint(v)` the tint is present
and reads back exactly `v`. -/
theorem claim_C9_tint_lifecycle :
    (∀ r, (color.of_rgb r).has_tint = false) ∧
    (∀ i, (color.of_indexed i).has_tint = false) ∧
    (∀ t, (color.of_theme t).has_tint = false) ∧
    color.default_color.has_tint = false ∧
    (∀ (c : color) (v : ℚ),
      (c.set_tint v).has_tint = true ∧ (c.set_tint v).tint_value = .ok v) :=
  ⟨fun _ => rfl, fun _ => rfl, fun _ => rfl, rfl, fun _ _ => ⟨rfl, rfl⟩⟩

/-- C10.  Frame conditions of the two modifier setters: `auto_(b)` only
sets the auto flag and `tint(v)` only sets the tint; the discriminant,
all payload slots, and the respective other modifier are unchanged. -/
theorem claim_C10_setter_frame :
    ∀ (c : color) (b : Bool) (v : ℚ),
      ((c.set_auto b).type = c.type ∧ (c.set_auto b).rgb_ = c.rgb_ ∧
       (c.set_auto b).indexed_ = c.indexed_ ∧ (c.set_auto b).theme_ = c.theme_ ∧
       (c.set_auto b).tint_ = c.tint_ ∧ (c.set_auto b).has_tint = c.has_tint ∧
       (c.set_auto b).auto_flag = b) ∧
      ((c.set_tint v).type = c.type ∧ (c.set_tint v).rgb_ = c.rgb_ ∧
       (c.set_tint v).indexed_ = c.indexed_ ∧ (c.set_tint v).theme_ = c.theme_ ∧
       (c.set_tint v).auto_flag = c.auto_flag) :=
  fun _ _ _ =>
    ⟨⟨rfl, rfl, rfl, rfl, rfl, rfl, rfl⟩, ⟨rfl, rfl, rfl, rfl, rfl⟩⟩

end Xlnt
